import Mathlib

/-!
Shallow embedding of `src/aqi_client.py` (leyiang/aqi-monitor).

The program polls an air-quality API, classifies the numeric AQI reading
into a severity level, stores the reading in a SQLite table
`aqi_records`, and notifies (log + print) whenever the stored level of
the previous record differs from the level of the new reading.

Embedding conventions:
- `datetime` timestamps become `Int` (only their total order matters,
  via the SQL `ORDER BY timestamp DESC`).
- The SQLite table `aqi_records` becomes a `List AqiRecord` in insertion
  order; the `id` autoincrement column is the list position.
- Side effects (the HTTP GET, the `INSERT`, the notification print/log)
  become an explicit `List Event` trace, in program order.
- Python exceptions (`ValueError` raised by `get_aqi`) become `Except`.
-/

/-- Embeds `class AQILevel(Enum)`: the six declared enum members, in
declaration order. -/
inductive AQILevel
  | GOOD
  | MODERATE
  | UNHEALTHY_SENSITIVE
  | UNHEALTHY
  | VERY_UNHEALTHY
  | HAZARDOUS
deriving DecidableEq, Repr

/-- First component of each enum member's value tuple (the range lower
bound): `GOOD = (0, ...)`, `MODERATE = (51, ...)`, etc. -/
def AQILevel.lower : AQILevel → Int
  | .GOOD => 0
  | .MODERATE => 51
  | .UNHEALTHY_SENSITIVE => 101
  | .UNHEALTHY => 151
  | .VERY_UNHEALTHY => 201
  | .HAZARDOUS => 301

/-- Second component of each enum member's value tuple (the range upper
bound). -/
def AQILevel.upper : AQILevel → Int
  | .GOOD => 50
  | .MODERATE => 100
  | .UNHEALTHY_SENSITIVE => 150
  | .UNHEALTHY => 200
  | .VERY_UNHEALTHY => 300
  | .HAZARDOUS => 500

/-- Third component of each enum member's value tuple: the
human-readable label, `level.value[2]` in the source. -/
def AQILevel.label : AQILevel → String
  | .GOOD => "Good"
  | .MODERATE => "Moderate"
  | .UNHEALTHY_SENSITIVE => "Unhealthy for Sensitive Groups"
  | .UNHEALTHY => "Unhealthy"
  | .VERY_UNHEALTHY => "Very Unhealthy"
  | .HAZARDOUS => "Hazardous"

/-- The Python enum member name, `level.name` in the source.  This — not
the human-readable label — is what `store_aqi` writes to the `level`
column and passes to `notify_level_change`. -/
def AQILevel.levelName : AQILevel → String
  | .GOOD => "GOOD"
  | .MODERATE => "MODERATE"
  | .UNHEALTHY_SENSITIVE => "UNHEALTHY_SENSITIVE"
  | .UNHEALTHY => "UNHEALTHY"
  | .VERY_UNHEALTHY => "VERY_UNHEALTHY"
  | .HAZARDOUS => "HAZARDOUS"

/-- Iteration order of `for level in cls` over the enum: declaration
order. -/
def AQILevel.members : List AQILevel :=
  [.GOOD, .MODERATE, .UNHEALTHY_SENSITIVE, .UNHEALTHY, .VERY_UNHEALTHY, .HAZARDOUS]

/-- The scan loop body of `AQILevel.get_level`: return the first member
whose `[lower, upper]` range contains `aqi`; fall through to the
`return cls.HAZARDOUS` after the loop. -/
def getLevelScan (aqi : Int) : List AQILevel → AQILevel
  | [] => .HAZARDOUS
  | l :: ls => if l.lower ≤ aqi ∧ aqi ≤ l.upper then l else getLevelScan aqi ls

/-- Embeds `AQILevel.get_level(cls, aqi)`:
`for level in cls: if level.value[0] <= aqi <= level.value[1]: return level`
then `return cls.HAZARDOUS`. -/
def AQILevel.get_level (aqi : Int) : AQILevel :=
  getLevelScan aqi AQILevel.members

/-- Embeds `@dataclass class AQIResponse`: one parsed API reading. -/
structure AQIResponse where
  aqi : Int
  time : Int
  station : String
  dominentpol : String
deriving DecidableEq, Repr

/-- One row of the SQLite table `aqi_records`
(`timestamp, aqi, level, station, dominentpol`); the autoincrement `id`
is the position in the store list. -/
structure AqiRecord where
  timestamp : Int
  aqi : Int
  level : String
  station : String
  dominentpol : String
deriving DecidableEq, Repr

/-- Observable side effects of one poll cycle, in program order. -/
inductive Event
  | networkCall (token : Option String)
  | apiError (detail : String)
  | insertRecord (r : AqiRecord)
  | notify (aqi : Int) (oldLevel : String) (newLevel : String) (dominentpol : String)
  | logNoChange (aqi : Int) (level : String)
deriving DecidableEq, Repr

/-- The row `store_aqi` inserts:
`(data.time, data.aqi, level.name, data.station, data.dominentpol)`
with `level = AQILevel.get_level(data.aqi)`. -/
def recordOf (data : AQIResponse) : AqiRecord :=
  ⟨data.time, data.aqi, (AQILevel.get_level data.aqi).levelName, data.station, data.dominentpol⟩

/-- Scan for a row of maximal timestamp, carrying the best row so far. -/
def maxFrom (b : AqiRecord) : List AqiRecord → AqiRecord
  | [] => b
  | r :: rs => if b.timestamp < r.timestamp then maxFrom r rs else maxFrom b rs

/-- Embeds the SQL `ORDER BY timestamp DESC LIMIT 1`: picks a row of
maximal timestamp (the concrete tie-break is irrelevant to every theorem
below, which only use maximality). -/
def maxByTimestamp : List AqiRecord → Option AqiRecord
  | [] => none
  | r :: rs => some (maxFrom r rs)

/-- Embeds `get_last_record()`:
`SELECT aqi, level FROM aqi_records ORDER BY timestamp DESC LIMIT 1`,
returning `None` when the table is empty.  Note the query projects only
the `aqi` and `level` columns. -/
def get_last_record (store : List AqiRecord) : Option (Int × String) :=
  (maxByTimestamp store).map (fun r => (r.aqi, r.level))

/-- Embeds the change-detection condition of `store_aqi`:
`if last_record and last_record[1] != level.name` — true iff a previous
record exists (`fetchone` returned a non-`None` tuple, which is truthy)
and its stored level string differs from the current one. -/
def detectChange (previous : Option String) (current : String) : Bool :=
  match previous with
  | none => false
  | some p => p != current

/-- Embeds `notify_level_change(data, old_level, new_level)`: logs the
jump and prints a message built from `data.aqi`, `new_level` and
`data.dominentpol`. -/
def notify_level_change (data : AQIResponse) (old_level : String) (new_level : String) : Event :=
  .notify data.aqi old_level new_level data.dominentpol

/-- Embeds `store_aqi(data)`: classify, read the last record, INSERT the
new row (commit), then — only after the write — compare levels and
either notify or log "no jump".  Returns the new store contents and the
trace of effects in program order. -/
def store_aqi (store : List AqiRecord) (data : AQIResponse) : List AqiRecord × List Event :=
  let level := AQILevel.get_level data.aqi
  let last_record := get_last_record store
  let newStore := store ++ [recordOf data]
  let afterInsert : List Event :=
    match last_record with
    | some (_, prevLevel) =>
      if prevLevel != level.levelName then
        [notify_level_change data prevLevel level.levelName]
      else
        [.logNoChange data.aqi level.levelName]
    | none => [.logNoChange data.aqi level.levelName]
  (newStore, .insertRecord (recordOf data) :: afterInsert)

/-- The JSON body the API returns: `status`, and on success the fields
of `data` that `AQIResponse.from_response` reads; on failure
`data.get('data')` is an error detail. -/
structure ApiReply where
  status : String
  dataAqi : Int
  dataTimeIso : Int
  dataCityName : String
  dataDominentpol : String
  errorDetail : String
deriving DecidableEq, Repr

/-- Embeds `AQIResponse.from_response(data)`. -/
def AQIResponse.from_response (reply : ApiReply) : AQIResponse :=
  ⟨reply.dataAqi, reply.dataTimeIso, reply.dataCityName, reply.dataDominentpol⟩

/-- Embeds `get_aqi(token)`: builds the URL from whatever token value it
was given (the source performs `requests.get` unconditionally, with no
check that the token is present), then raises `ValueError` when
`data['status'] != 'ok'`, else parses the payload.  The trace records
the network call first. -/
def get_aqi (token : Option String) (reply : ApiReply) :
    Except String AQIResponse × List Event :=
  if reply.status ≠ "ok" then
    (Except.error reply.errorDetail, [.networkCall token, .apiError reply.errorDetail])
  else
    (Except.ok (AQIResponse.from_response reply), [.networkCall token])

/-- Embeds the `__main__` block: `TOKEN = os.getenv("AQICN_TOKEN")`
(possibly `None`, never checked), `init_db()` (schema only, no rows),
then `get_aqi(TOKEN)`; on `ValueError`/`RequestException` the cycle
aborts (caught, printed, logged) with the store untouched; on success
`store_aqi(result)` runs. -/
def mainPoll (envToken : Option String) (reply : ApiReply) (store : List AqiRecord) :
    List AqiRecord × List Event :=
  let fetched := get_aqi envToken reply
  match fetched.1 with
  | Except.error _ => (store, fetched.2)
  | Except.ok data =>
    let stored := store_aqi store data
    (stored.1, fetched.2 ++ stored.2)

/-- Concrete stored row whose `level` column holds the human-readable
string "Good", as premised by end-to-end scenario 2. -/
def goodPrior : AqiRecord :=
  ⟨1, 30, "Good", "Shanghai Pudong Huinan", "pm25"⟩

/-- Concrete incoming reading with aqi = 120 for end-to-end scenario 2. -/
def reading120 : AQIResponse :=
  ⟨120, 2, "Shanghai Pudong Huinan", "pm25"⟩

/-- Concrete stored row with a late timestamp (10). -/
def laterExisting : AqiRecord :=
  ⟨10, 300, "VERY_UNHEALTHY", "Shanghai Pudong Huinan", "pm25"⟩

/-- Concrete row with an earlier timestamp (5) than `laterExisting`. -/
def earlierRow : AqiRecord :=
  ⟨5, 42, "GOOD", "Shanghai Pudong Huinan", "pm25"⟩

/-- Concrete row with a later timestamp (20) than `laterExisting`. -/
def newestRow : AqiRecord :=
  ⟨20, 55, "MODERATE", "Shanghai Pudong Huinan", "pm10"⟩

/-- Concrete API reply with a non-"ok" status. -/
def badReply : ApiReply :=
  ⟨"error", 0, 0, "", "", "Invalid key"⟩

/-! ## Helper lemmas -/

/-- `get_level` as a flat chain of range tests. -/
lemma get_level_cases (v : Int) :
    AQILevel.get_level v =
      if 0 ≤ v ∧ v ≤ 50 then .GOOD
      else if 51 ≤ v ∧ v ≤ 100 then .MODERATE
      else if 101 ≤ v ∧ v ≤ 150 then .UNHEALTHY_SENSITIVE
      else if 151 ≤ v ∧ v ≤ 200 then .UNHEALTHY
      else if 201 ≤ v ∧ v ≤ 300 then .VERY_UNHEALTHY
      else if 301 ≤ v ∧ v ≤ 500 then .HAZARDOUS
      else .HAZARDOUS := by
  simp only [AQILevel.get_level, AQILevel.members, getLevelScan, AQILevel.lower, AQILevel.upper]

/-- The running-best scan lands on a member of `b :: l` whose timestamp
dominates all of `b :: l`. -/
lemma maxFrom_spec (l : List AqiRecord) : ∀ b : AqiRecord,
    maxFrom b l ∈ b :: l ∧ ∀ x ∈ b :: l, x.timestamp ≤ (maxFrom b l).timestamp := by
  induction l with
  | nil => intro b; simp [maxFrom]
  | cons r rs ih =>
    intro b
    by_cases hlt : b.timestamp < r.timestamp
    · obtain ⟨hmem, hmax⟩ := ih r
      refine ⟨?_, ?_⟩
      · simp only [maxFrom, if_pos hlt]
        rcases List.mem_cons.mp hmem with hm | hm
        · simp [hm]
        · exact List.mem_cons_of_mem _ (List.mem_cons_of_mem _ hm)
      · intro x hx
        simp only [maxFrom, if_pos hlt]
        rcases List.mem_cons.mp hx with hx | hx
        · have := hmax (maxFrom r rs) hmem
          have hr := hmax r (List.mem_cons_self r rs)
          subst hx; omega
        · exact hmax x hx
    · obtain ⟨hmem, hmax⟩ := ih b
      refine ⟨?_, ?_⟩
      · simp only [maxFrom, if_neg hlt]
        rcases List.mem_cons.mp hmem with hm | hm
        · simp [hm]
        · exact List.mem_cons_of_mem _ (List.mem_cons_of_mem _ hm)
      · intro x hx
        simp only [maxFrom, if_neg hlt]
        rcases List.mem_cons.mp hx with hx | hx
        · rw [hx]; exact hmax b (List.mem_cons_self b rs)
        · rcases List.mem_cons.mp hx with hx | hx
          · have hb := hmax b (List.mem_cons_self b rs)
            subst hx; omega
          · exact hmax x (List.mem_cons_of_mem b hx)

/-- A nonempty store has a stored row of maximal timestamp, and
`maxByTimestamp` returns it. -/
lemma maxByTimestamp_spec (store : List AqiRecord) (h : store ≠ []) :
    ∃ r ∈ store, maxByTimestamp store = some r ∧
      ∀ x ∈ store, x.timestamp ≤ r.timestamp := by
  cases store with
  | nil => exact absurd rfl h
  | cons a rest =>
    obtain ⟨hmem, hmax⟩ := maxFrom_spec rest a
    exact ⟨maxFrom a rest, hmem, rfl, hmax⟩

/-- The running-best scan picks the strictly dominating appended row. -/
lemma maxFrom_append_strict (store : List AqiRecord) (r : AqiRecord) : ∀ b : AqiRecord,
    b.timestamp < r.timestamp → (∀ x ∈ store, x.timestamp < r.timestamp) →
    maxFrom b (store ++ [r]) = r := by
  induction store with
  | nil =>
    intro b hb _
    simp [maxFrom, hb]
  | cons a rest ih =>
    intro b hb h
    have ha : a.timestamp < r.timestamp := h a (List.mem_cons_self a _)
    have hrest : ∀ x ∈ rest, x.timestamp < r.timestamp :=
      fun x hx => h x (List.mem_cons_of_mem a hx)
    by_cases hlt : b.timestamp < a.timestamp
    · simp only [List.cons_append, maxFrom, if_pos hlt]
      exact ih a ha hrest
    · simp only [List.cons_append, maxFrom, if_neg hlt]
      exact ih b hb hrest

/-- Appending a row whose timestamp strictly dominates every stored
timestamp makes it the row `maxByTimestamp` finds. -/
lemma maxByTimestamp_append_strict (store : List AqiRecord) (r : AqiRecord)
    (h : ∀ x ∈ store, x.timestamp < r.timestamp) :
    maxByTimestamp (store ++ [r]) = some r := by
  cases store with
  | nil => simp [maxByTimestamp, maxFrom]
  | cons a rest =>
    have ha : a.timestamp < r.timestamp := h a (List.mem_cons_self a _)
    have hrest : ∀ x ∈ rest, x.timestamp < r.timestamp :=
      fun x hx => h x (List.mem_cons_of_mem a hx)
    simp only [List.cons_append, maxByTimestamp]
    rw [maxFrom_append_strict rest r a ha hrest]

/-! ## Claim theorems -/

/-- C1: for every integer v in the declared domain, `get_level`
classifies per the fixed range table — [0,50] "Good", [51,100]
"Moderate", [101,150] "Unhealthy for Sensitive Groups", [151,200]
"Unhealthy", [201,300] "Very Unhealthy", [301,500] "Hazardous" — and
every v above 500 falls through the scan to the "Hazardous" fallback. -/
theorem classify_matches_range_table (v : Int) :
    (0 ≤ v → v ≤ 50 → (AQILevel.get_level v).label = "Good") ∧
    (51 ≤ v → v ≤ 100 → (AQILevel.get_level v).label = "Moderate") ∧
    (101 ≤ v → v ≤ 150 → (AQILevel.get_level v).label = "Unhealthy for Sensitive Groups") ∧
    (151 ≤ v → v ≤ 200 → (AQILevel.get_level v).label = "Unhealthy") ∧
    (201 ≤ v → v ≤ 300 → (AQILevel.get_level v).label = "Very Unhealthy") ∧
    (301 ≤ v → v ≤ 500 → (AQILevel.get_level v).label = "Hazardous") ∧
    (500 < v → (AQILevel.get_level v).label = "Hazardous") := by
  have h := get_level_cases v
  refine ⟨?_, ?_, ?_, ?_, ?_, ?_, ?_⟩ <;> intros <;> rw [h] <;>
    split_ifs <;> first | rfl | omega

/-- Witness for C1: evaluates the classifier at one point of each range
and one point above 500. -/
theorem classify_matches_range_table_witness :
    (AQILevel.get_level 42).label = "Good" ∧
    (AQILevel.get_level 60).label = "Moderate" ∧
    (AQILevel.get_level 120).label = "Unhealthy for Sensitive Groups" ∧
    (AQILevel.get_level 180).label = "Unhealthy" ∧
    (AQILevel.get_level 250).label = "Very Unhealthy" ∧
    (AQILevel.get_level 400).label = "Hazardous" ∧
    (AQILevel.get_level 999).label = "Hazardous" :=
  ⟨(classify_matches_range_table 42).1 (by decide) (by decide),
   (classify_matches_range_table 60).2.1 (by decide) (by decide),
   (classify_matches_range_table 120).2.2.1 (by decide) (by decide),
   (classify_matches_range_table 180).2.2.2.1 (by decide) (by decide),
   (classify_matches_range_table 250).2.2.2.2.1 (by decide) (by decide),
   (classify_matches_range_table 400).2.2.2.2.2.1 (by decide) (by decide),
   (classify_matches_range_table 999).2.2.2.2.2.2 (by decide)⟩

/-- C10: every negative input also falls through the range scan (no
range's lower bound is below 0) and lands on the same `HAZARDOUS`
fallback used for values above 500 — it is classified, not rejected. -/
theorem classify_negative_uses_hazardous_fallback (v : Int) :
    (v < 0 → AQILevel.get_level v = AQILevel.HAZARDOUS) ∧
    (500 < v → AQILevel.get_level v = AQILevel.HAZARDOUS) := by
  have h := get_level_cases v
  constructor <;> intro hv <;> rw [h] <;> split_ifs <;> first | rfl | omega

/-- Witness for C10: evaluates the fallback at -5 and at 999. -/
theorem classify_negative_uses_hazardous_fallback_witness :
    AQILevel.get_level (-5) = AQILevel.HAZARDOUS ∧
    AQILevel.get_level 999 = AQILevel.HAZARDOUS :=
  ⟨(classify_negative_uses_hazardous_fallback (-5)).1 (by decide),
   (classify_negative_uses_hazardous_fallback 999).2 (by decide)⟩

/-- C2: the change-detection condition is true exactly when a previous
record exists and its stored level differs from the current one; with no
previous record it is false, and on a first-ever poll (empty store) the
cycle's trace is the insert followed by the "no jump" log — no
notification. -/
theorem detect_change_iff_previous_differs :
    (∀ p c, detectChange p c = true ↔ ∃ q, p = some q ∧ q ≠ c) ∧
    (∀ c, detectChange none c = false) ∧
    (∀ data : AQIResponse, (store_aqi [] data).2 =
      [Event.insertRecord (recordOf data),
       Event.logNoChange data.aqi (AQILevel.get_level data.aqi).levelName]) := by
  refine ⟨?_, ?_, ?_⟩
  · intro p c
    cases p with
    | none => simp [detectChange]
    | some q => simp [detectChange]
  · intro c; rfl
  · intro data; rfl

/-- C9: in every poll cycle the first effect of `store_aqi` is the
insert of the new row (so every notification comes after the write), and
a notification event is in the trace exactly when the change-detection
condition holds for the previous stored level and the new one. -/
theorem notify_after_write_and_only_on_change (store : List AqiRecord) (data : AQIResponse) :
    ((store_aqi store data).2).head? = some (Event.insertRecord (recordOf data)) ∧
    ((∃ old, notify_level_change data old (AQILevel.get_level data.aqi).levelName
        ∈ (store_aqi store data).2) ↔
      detectChange ((get_last_record store).map Prod.snd)
        (AQILevel.get_level data.aqi).levelName = true) := by
  constructor
  · cases h : get_last_record store <;> simp [store_aqi, h]
  · cases h : get_last_record store with
    | none => simp [store_aqi, h, detectChange, notify_level_change]
    | some pr =>
      obtain ⟨prevAqi, prevLevel⟩ := pr
      by_cases hne : prevLevel = (AQILevel.get_level data.aqi).levelName
      · simp [store_aqi, h, detectChange, notify_level_change, hne]
      · simp [store_aqi, h, detectChange, notify_level_change, hne]

/-- C8: the store is append-only — one poll cycle's only mutation is
appending the single new row, every previously stored record staying in
place unchanged; and the full cycle either leaves the store untouched
(error abort) or performs exactly that one append; classification, the
last-record query and notification return no store at all. -/
theorem store_append_only (store : List AqiRecord) (data : AQIResponse)
    (token : Option String) (reply : ApiReply) :
    (store_aqi store data).1 = store ++ [recordOf data] ∧
    (store_aqi store data).1.length = store.length + 1 ∧
    (store_aqi store data).1.take store.length = store ∧
    ((mainPoll token reply store).1 = store ∨
      (mainPoll token reply store).1 = store ++ [recordOf (AQIResponse.from_response reply)]) := by
  refine ⟨rfl, by simp [store_aqi], by simp [store_aqi], ?_⟩
  by_cases hs : reply.status = "ok"
  · right; simp [mainPoll, get_aqi, hs, store_aqi]
  · left; simp [mainPoll, get_aqi, hs]

/-- C7: on the empty store `get_last_record` returns `none` (it does not
fail), and on a nonempty store it returns the `(aqi, level)` columns of
a stored row whose timestamp is maximal — the latest record by the
`ORDER BY timestamp DESC LIMIT 1` query. -/
theorem most_recent_latest_or_none :
    get_last_record [] = none ∧
    ∀ store : List AqiRecord, store ≠ [] →
      ∃ r ∈ store, get_last_record store = some (r.aqi, r.level) ∧
        ∀ x ∈ store, x.timestamp ≤ r.timestamp := by
  refine ⟨rfl, ?_⟩
  intro store h
  obtain ⟨r, hmem, hval, hmax⟩ := maxByTimestamp_spec store h
  exact ⟨r, hmem, by simp [get_last_record, hval], hmax⟩

/-- Witness for C7: evaluates the query on a concrete two-row store. -/
theorem most_recent_latest_or_none_witness :
    get_last_record [] = none ∧
    ∃ r ∈ [laterExisting, earlierRow],
      get_last_record [laterExisting, earlierRow] = some (r.aqi, r.level) ∧
        ∀ x ∈ [laterExisting, earlierRow], x.timestamp ≤ r.timestamp :=
  ⟨most_recent_latest_or_none.1,
   most_recent_latest_or_none.2 [laterExisting, earlierRow] (by simp)⟩

/-- C5 counterexample: appending a row whose timestamp (5) is older than
an already-stored row's (10) and immediately querying does not return
the just-written row — the query returns the other row's `(aqi, level)`
(and only those two columns, never all five fields). -/
theorem roundtrip_counterexample :
    (get_last_record ([laterExisting] ++ [earlierRow]) ==
      some (earlierRow.aqi, earlierRow.level)) = false ∧
    get_last_record ([laterExisting] ++ [earlierRow]) =
      some (laterExisting.aqi, laterExisting.level) := by
  constructor
  · rfl
  · rfl

/-- C5 amended: when the appended row's timestamp strictly exceeds every
timestamp already stored, `get_last_record` right after the append
returns that row's `aqi` and `level` — the only columns the query
selects. -/
theorem roundtrip_amended (store : List AqiRecord) (r : AqiRecord)
    (h : ∀ x ∈ store, x.timestamp < r.timestamp) :
    get_last_record (store ++ [r]) = some (r.aqi, r.level) := by
  simp [get_last_record, maxByTimestamp_append_strict store r h]

/-- Witness for the amended C5: a concrete append with the newest
timestamp is observed by the immediate query. -/
theorem roundtrip_amended_witness :
    get_last_record ([laterExisting] ++ [newestRow]) =
      some (newestRow.aqi, newestRow.level) :=
  roundtrip_amended [laterExisting] newestRow (by decide)

/-- C3 counterexample: in scenario 2 (stored level "Good", incoming
aqi = 120) the cycle's trace contains no notification carrying the
human-readable label "Unhealthy for Sensitive Groups", and no stored
row's `level` column holds that label — the code stores and notifies the
enum member name instead. -/
theorem scenario2_counterexample :
    ((store_aqi [goodPrior] reading120).2.contains
      (Event.notify 120 "Good" "Unhealthy for Sensitive Groups" "pm25")) = false ∧
    (((store_aqi [goodPrior] reading120).1.map AqiRecord.level).contains
      "Unhealthy for Sensitive Groups") = false := by
  constructor
  · rfl
  · rfl

/-- C3 amended: with the store's most recent record holding level
string "Good" and an incoming reading of aqi = 120, the reading is
classified `UNHEALTHY_SENSITIVE` (whose human-readable label is
"Unhealthy for Sensitive Groups"), the new row is appended with `level`
column "UNHEALTHY_SENSITIVE" (the enum member name), and the
notification fires with old string "Good" and new string
"UNHEALTHY_SENSITIVE" — the stored and notified strings are the enum
member names, not the human-readable labels. -/
theorem scenario2_amended :
    AQILevel.get_level 120 = AQILevel.UNHEALTHY_SENSITIVE ∧
    (AQILevel.get_level 120).label = "Unhealthy for Sensitive Groups" ∧
    (recordOf reading120).level = "UNHEALTHY_SENSITIVE" ∧
    (store_aqi [goodPrior] reading120).1 = [goodPrior, recordOf reading120] ∧
    (store_aqi [goodPrior] reading120).2 =
      [Event.insertRecord (recordOf reading120),
       Event.notify 120 "Good" "UNHEALTHY_SENSITIVE" "pm25"] := by
  refine ⟨rfl, rfl, rfl, rfl, rfl⟩

/-- C4: with the token absent from the environment
(`os.getenv` = `None`), the very first effect of the cycle is still the
network call, made with the absent token — no configuration check or
configuration error precedes it, whatever the API then replies. -/
theorem missing_token_still_makes_network_call (reply : ApiReply) (store : List AqiRecord) :
    ((mainPoll none reply store).2).head? = some (Event.networkCall none) := by
  by_cases hs : reply.status = "ok" <;> simp [mainPoll, get_aqi, hs]

/-- C6: whenever the API reply's status is not "ok", `get_aqi` raises
the typed error carrying the reply's error detail, the poll cycle aborts
with the store unchanged, and the trace holds only the network call and
the API error — no insert and no notification. -/
theorem api_error_aborts_cycle (token : Option String) (reply : ApiReply)
    (store : List AqiRecord) (h : reply.status ≠ "ok") :
    (get_aqi token reply).1 = Except.error reply.errorDetail ∧
    (mainPoll token reply store).1 = store ∧
    (mainPoll token reply store).2 =
      [Event.networkCall token, Event.apiError reply.errorDetail] := by
  refine ⟨?_, ?_, ?_⟩ <;> simp [mainPoll, get_aqi, h]

/-- Witness for C6: a concrete reply with status "error" aborts the
cycle on a concrete store. -/
theorem api_error_aborts_cycle_witness :
    (badReply.status == "ok") = false ∧
    (get_aqi (some "t") badReply).1 = Except.error "Invalid key" ∧
    (mainPoll (some "t") badReply [goodPrior]).1 = [goodPrior] ∧
    (mainPoll (some "t") badReply [goodPrior]).2 =
      [Event.networkCall (some "t"), Event.apiError "Invalid key"] :=
  ⟨rfl,
   (api_error_aborts_cycle (some "t") badReply [goodPrior] (by decide)).1,
   (api_error_aborts_cycle (some "t") badReply [goodPrior] (by decide)).2.1,
   (api_error_aborts_cycle (some "t") badReply [goodPrior] (by decide)).2.2⟩
